import Mathlib

/-!
Verification development for the device-state reconciliation and broadcast
engine of the jarv/mqtt repository (Go sources under mqtt/).

The Go code is shallowly embedded as executable Lean definitions:

* SQL `REAL` columns and Go `float64` fields are modelled as exact
  rationals (`ℚ`); none of the verified properties depends on
  floating-point rounding (values are either compared with zero or
  carried verbatim between records).
* The SQLite store (table `devices`, see query.sql and the schema in
  main.go) is modelled as a list of rows; the sqlc-generated query
  functions are modelled as pure list operations below.
* Fallible collaborator calls (the store, the JSON decoder) are modelled
  by explicit outcome data: a `Faults` record says which store calls
  fail, and a payload that failed `json.Unmarshal` is `none`.
* Timestamps are an abstract instant (`Int`, seconds) together with a
  Go `time.Location`-style zone, so that `.UTC()` normalization is
  observable.
-/

/-- Model of a Go `time.Location`: either UTC or some fixed offset. -/
inductive TZ where
  | utc : TZ
  | offset (minutes : Int) : TZ
deriving DecidableEq, Repr

/-- Model of a Go `time.Time`: an absolute instant (seconds) plus the
location it is rendered in.  `time.Time.UTC()` keeps the instant and
switches the location to UTC. -/
structure GoTime where
  instant : Int
  zone : TZ
deriving DecidableEq, Repr

/-- Model of Go `t.UTC()`: same instant, UTC location. -/
def GoTime.toUTC (t : GoTime) : GoTime :=
  { instant := t.instant, zone := TZ.utc }

/-- One row of the SQLite `devices` table (schema in main.go):
id TEXT PRIMARY KEY, lat/lon/alt/speed/course REAL, sats INTEGER,
hdop REAL, battery_mv INTEGER, rssi REAL, snr REAL, online INTEGER,
last_seen DATETIME, created_at DATETIME. -/
structure Device where
  id : String
  lat : ℚ
  lon : ℚ
  alt : ℚ
  speed : ℚ
  course : ℚ
  sats : Int
  hdop : ℚ
  batteryMv : Int
  rssi : ℚ
  snr : ℚ
  online : Int
  lastSeen : GoTime
  createdAt : GoTime
deriving DecidableEq, Repr

/-- The store state: the rows of the `devices` table. -/
abbrev Store := List Device

/-- The Go zero value of `db.Device`, which `GetDevice` returns alongside
an error (sql.ErrNoRows or a transient failure). -/
def zeroDevice : Device :=
  { id := "", lat := 0, lon := 0, alt := 0, speed := 0, course := 0,
    sats := 0, hdop := 0, batteryMv := 0, rssi := 0, snr := 0, online := 0,
    lastSeen := { instant := 0, zone := TZ.utc },
    createdAt := { instant := 0, zone := TZ.utc } }

/-- Which store calls fail during one operation.  The Go code reaches the
database through `s.queries`; any call can return an error (transient
failure), and `GetDevice` additionally errors with `sql.ErrNoRows` when
the row is absent (covered separately by `getDevice` returning `none`). -/
structure Faults where
  getErr : Bool
  upsertErr : Bool
  listErr : Bool
  deleteErr : Bool
deriving DecidableEq, Repr

/-- The fault-free schedule: every store call succeeds. -/
def noFaults : Faults :=
  { getErr := false, upsertErr := false, listErr := false, deleteErr := false }

/-- Model of the sqlc query `GetDevice` (query.sql):
SELECT * FROM devices WHERE id = ? LIMIT 1. -/
def getDevice (store : Store) (id : String) : Option Device :=
  store.find? (fun d => d.id == id)

/-- The parameter record of the sqlc query `UpsertDevice`
(db.UpsertDeviceParams): every column except the timestamps. -/
structure UpsertDeviceParams where
  id : String
  lat : ℚ
  lon : ℚ
  alt : ℚ
  speed : ℚ
  course : ℚ
  sats : Int
  hdop : ℚ
  batteryMv : Int
  rssi : ℚ
  snr : ℚ
  online : Int
deriving DecidableEq, Repr

/-- The row written by `UpsertDevice`: all parameter columns, with
`last_seen = CURRENT_TIMESTAMP` and the given `created_at`. -/
def applyUpsert (p : UpsertDeviceParams) (now : GoTime) (created : GoTime) : Device :=
  { id := p.id, lat := p.lat, lon := p.lon, alt := p.alt, speed := p.speed,
    course := p.course, sats := p.sats, hdop := p.hdop,
    batteryMv := p.batteryMv, rssi := p.rssi, snr := p.snr,
    online := p.online, lastSeen := now, createdAt := created }

/-- Model of the sqlc query `UpsertDevice` (query.sql): INSERT with all
columns and `last_seen = CURRENT_TIMESTAMP`; ON CONFLICT(id) DO UPDATE
SET every column except `created_at` from the excluded row, with
`last_seen = CURRENT_TIMESTAMP`. -/
def upsertDevice (store : Store) (p : UpsertDeviceParams) (now : GoTime) : Store :=
  if store.any (fun d => d.id == p.id) then
    store.map (fun d => if d.id == p.id then applyUpsert p now d.createdAt else d)
  else
    store ++ [applyUpsert p now now]

/-- The ORDER BY relation of `ListDevices`: row `a` sorts no later than
row `b` when its `last_seen` is at least `b`'s (descending order). -/
def devGE (a b : Device) : Prop :=
  b.lastSeen.instant ≤ a.lastSeen.instant

instance : DecidableRel devGE := fun a b => by
  unfold devGE
  infer_instance

instance : IsTotal Device devGE :=
  ⟨fun a b => le_total b.lastSeen.instant a.lastSeen.instant⟩

instance : IsTrans Device devGE :=
  ⟨fun _ _ _ h1 h2 => le_trans h2 h1⟩

/-- Model of the sqlc query `ListDevices` (query.sql):
SELECT * FROM devices ORDER BY last_seen DESC. -/
def listDevices (store : Store) : List Device :=
  List.insertionSort devGE store

/-- The staleness threshold: 48 hours in seconds. -/
def staleThreshold : Int := 172800

/-- Model of the sqlc query `DeleteStaleDevices` (query.sql):
DELETE FROM devices WHERE last_seen < datetime('now', '-48 hours'). -/
def deleteStaleDevices (store : Store) (now : Int) : Store :=
  store.filter (fun d => !(decide (d.lastSeen.instant < now - staleThreshold)))

/-- Go struct `PositionPayload` (subscriber.go): the payload of a
Meshtastic `type = "position"` packet.  `latitude_i`/`longitude_i` are
fixed-point integer degrees ×1e7. -/
structure PositionPayload where
  latitudeI : Int
  longitudeI : Int
  altitude : ℚ
  groundSpeed : ℚ
  satsInView : Int
deriving DecidableEq, Repr

/-- Go struct `TelemetryPayload` (subscriber.go): the payload of a
Meshtastic `type = "telemetry"` packet. -/
structure TelemetryPayload where
  batteryLevel : ℚ
  voltage : ℚ
  channelUtil : ℚ
  airUtilTX : ℚ
deriving DecidableEq, Repr

/-- Model of the `json.RawMessage` inner payload of a Meshtastic packet:
the raw bytes are represented by the outcome of each of the two decode
attempts the code can make on them (`json.Unmarshal` into
`PositionPayload` and into `TelemetryPayload`); `none` means that decode
fails. -/
structure RawMessage where
  asPosition : Option PositionPayload
  asTelemetry : Option TelemetryPayload
deriving DecidableEq, Repr

/-- Go struct `MeshtasticPacket` (subscriber.go): the top-level JSON
envelope.  The source field `From` (`uint32`, json tag "from") is named
`fromNode` here because `from` is reserved in Lean. -/
structure MeshtasticPacket where
  fromNode : Nat
  sender : String
  timestamp : Int
  type : String
  payload : RawMessage
deriving DecidableEq, Repr

/-- Splits a character list at every occurrence of `c`, keeping empty
segments, like Go `strings.Split` with a one-character separator. -/
def splitOnChar (c : Char) : List Char → List (List Char)
  | [] => [[]]
  | x :: xs =>
    match splitOnChar c xs with
    | [] => [[]]
    | g :: gs => if x = c then [] :: g :: gs else (x :: g) :: gs

/-- Model of Go `strings.Split(topic, "/")`. -/
def splitSlash (topic : String) : List String :=
  (splitOnChar '/' topic.data).map List.asString

/-- Model of `isMeshtasticJSONTopic` (subscriber.go): true for topics
`msh/{region}/2/json/{channel}/{node}`, i.e. at least five
slash-segments with segment 0 = "msh", segment 2 = "2",
segment 3 = "json". -/
def isMeshtasticJSONTopic (topic : String) : Bool :=
  let parts := splitSlash topic
  decide (5 ≤ parts.length) && (parts.getD 0 "") == "msh"
    && (parts.getD 2 "") == "2" && (parts.getD 3 "") == "json"

/-- Lower-case hex digits of `n`, most significant first; `fuel` bounds
the recursion (32 is enough for any `uint32`). -/
def hexDigits (fuel : Nat) (n : Nat) : List Char :=
  match fuel with
  | 0 => []
  | f + 1 =>
    if n = 0 then [] else hexDigits f (n / 16) ++ [Nat.digitChar (n % 16)]

/-- Model of `nodeID` (subscriber.go): `fmt.Sprintf("!%08x", from)` —
a "!" followed by the lower-case hex rendering of the `uint32` node
number, zero-padded on the left to width 8. -/
def nodeID (fromNode : Nat) : String :=
  let ds := if fromNode = 0 then ['0'] else hexDigits 32 fromNode
  List.asString ('!' :: (List.replicate (8 - ds.length) '0' ++ ds))

/-- Model of Go `int64(x)` applied to a `float64`: truncation toward
zero (exact on the rationals). -/
def truncQ (q : ℚ) : Int :=
  Int.tdiv q.num (Int.ofNat q.den)

/-- Model of `handlePosition` (subscriber.go).  Arguments: the fault
schedule of the store calls, the store clock (`CURRENT_TIMESTAMP`), the
current table, the node id, and the result of decoding the raw payload
as a `PositionPayload` (`none` = `json.Unmarshal` error).  Returns the
table afterwards and whether `broadcastDevices` was invoked. -/
def handlePosition (fl : Faults) (now : GoTime) (store : Store) (id : String)
    (raw : Option PositionPayload) : Store × Bool :=
  match raw with
  | none => (store, false)
  | some p =>
    if p.latitudeI = 0 ∧ p.longitudeI = 0 then (store, false)
    else
      let lat : ℚ := (p.latitudeI : ℚ) / 10000000
      let lon : ℚ := (p.longitudeI : ℚ) / 10000000
      let got : Option Device := if fl.getErr then none else getDevice store id
      let batteryLevel : Int :=
        match got with
        | some existing => existing.batteryMv
        | none => 0
      if fl.upsertErr then (store, false)
      else
        (upsertDevice store
          { id := id, lat := lat, lon := lon, alt := p.altitude,
            speed := p.groundSpeed, course := 0, sats := p.satsInView,
            hdop := 0, batteryMv := batteryLevel, rssi := 0, snr := 0,
            online := 1 } now, true)

/-- Model of `handleTelemetry` (subscriber.go).  Same conventions as
`handlePosition`; on a `GetDevice` error (row absent or store failure)
the Go code keeps the zero-valued `existing` row. -/
def handleTelemetry (fl : Faults) (now : GoTime) (store : Store) (id : String)
    (raw : Option TelemetryPayload) : Store × Bool :=
  match raw with
  | none => (store, false)
  | some t =>
    if t.batteryLevel = 0 ∧ t.voltage = 0 then (store, false)
    else
      let existing : Device :=
        match (if fl.getErr then none else getDevice store id) with
        | some e => e
        | none => zeroDevice
      if fl.upsertErr then (store, false)
      else
        (upsertDevice store
          { id := id, lat := existing.lat, lon := existing.lon,
            alt := existing.alt, speed := existing.speed, course := 0,
            sats := existing.sats, hdop := 0,
            batteryMv := truncQ t.batteryLevel, rssi := 0, snr := 0,
            online := 1 } now, true)

/-- Model of `HandleMessage` (subscriber.go): the broker calls this for
every published message.  The raw payload bytes are represented by the
outcome of decoding them as a `MeshtasticPacket` (`none` =
`json.Unmarshal` error). -/
def HandleMessage (fl : Faults) (now : GoTime) (store : Store) (topic : String)
    (payload : Option MeshtasticPacket) : Store × Bool :=
  if isMeshtasticJSONTopic topic then
    match payload with
    | none => (store, false)
    | some pkt =>
      let id := nodeID pkt.fromNode
      if pkt.type = "position" then handlePosition fl now store id pkt.payload.asPosition
      else if pkt.type = "telemetry" then handleTelemetry fl now store id pkt.payload.asTelemetry
      else (store, false)
  else (store, false)

/-- Go struct `DeviceView` (subscriber.go): the browser-facing
representation of a device. -/
structure DeviceView where
  id : String
  lat : ℚ
  lon : ℚ
  alt : ℚ
  speed : ℚ
  sats : Int
  batteryLevel : Int
  online : Bool
  lastSeen : GoTime
deriving DecidableEq, Repr

/-- Go struct `DeviceMessage` (subscriber.go): the WebSocket envelope. -/
structure DeviceMessage where
  type : String
  data : List DeviceView
deriving DecidableEq, Repr

/-- Model of `deviceToView` (subscriber.go): maps a store row to the
browser-facing shape, coercing the integer `online` column to a boolean
(`d.Online != 0`) and normalizing `last_seen` to UTC (`d.LastSeen.UTC()`). -/
def deviceToView (d : Device) : DeviceView :=
  { id := d.id, lat := d.lat, lon := d.lon, alt := d.alt, speed := d.speed,
    sats := d.sats, batteryLevel := d.batteryMv,
    online := d.online != 0, lastSeen := d.lastSeen.toUTC }

/-- A deterministic decimal-free rendering of a rational, standing in for
Go's shortest float64 formatting; it is injective, which is all the
verified properties use. -/
def ratStr (q : ℚ) : String :=
  toString q.num ++ "/" ++ toString q.den

/-- Model of Go's RFC3339 rendering of a `time.Time`: deterministic in
the instant and the location, and distinguishing UTC from offset zones
the way the "Z" suffix versus a numeric offset does. -/
def timeStr (t : GoTime) : String :=
  toString t.instant ++
    (match t.zone with
     | TZ.utc => "Z"
     | TZ.offset m => "+" ++ toString m)

/-- JSON string quoting (ids and the envelope tag contain no characters
needing escapes). -/
def jstr (s : String) : String :=
  "\"" ++ s ++ "\""

/-- Comma-joins rendered array elements. -/
def joinComma : List String → String
  | [] => ""
  | [x] => x
  | x :: y :: xs => x ++ "," ++ joinComma (y :: xs)

/-- Model of `json.Marshal` on a `DeviceView`: fields in struct order
under their json tags. -/
def marshalDeviceView (v : DeviceView) : String :=
  "\x7b\"id\":" ++ jstr v.id ++ ",\"lat\":" ++ ratStr v.lat ++
    ",\"lon\":" ++ ratStr v.lon ++ ",\"alt\":" ++ ratStr v.alt ++
    ",\"speed\":" ++ ratStr v.speed ++ ",\"sats\":" ++ toString v.sats ++
    ",\"battery_level\":" ++ toString v.batteryLevel ++
    ",\"online\":" ++ (if v.online then "true" else "false") ++
    ",\"last_seen\":" ++ jstr (timeStr v.lastSeen) ++ "\x7d"

/-- Model of `json.Marshal` on a `DeviceMessage`: the envelope
with tag "type" and array "data". -/
def marshalDeviceMessage (m : DeviceMessage) : String :=
  "\x7b\"type\":" ++ jstr m.type ++ ",\"data\":[" ++
    joinComma (m.data.map marshalDeviceView) ++ "]\x7d"

/-- Model of `broadcastDevices` (subscriber.go): list the devices (on a
list error, log and send nothing), map each row through `deviceToView`,
wrap in the `DeviceMessage` envelope, marshal, and hand the bytes to
`ConnectionManager.BroadcastAll`.  The result is the byte payload sent
to every viewer, or `none` when nothing was sent. -/
def broadcastDevices (fl : Faults) (store : Store) : Option String :=
  if fl.listErr then none
  else
    let devices := listDevices store
    let views := devices.map deviceToView
    let msg : DeviceMessage := { type := "devices", data := views }
    some (marshalDeviceMessage msg)

/-- Model of `LoadAndBroadcast` (subscriber.go): list the devices (on a
list error, return the error), map each row through `deviceToView`,
wrap in the `DeviceMessage` envelope, and return the marshalled bytes —
this is the catch-up snapshot the WebSocket handler writes to a newly
joined viewer.  `none` models the error return. -/
def LoadAndBroadcast (fl : Faults) (store : Store) : Option String :=
  if fl.listErr then none
  else
    let devices := listDevices store
    let views := devices.map deviceToView
    let msg : DeviceMessage := { type := "devices", data := views }
    some (marshalDeviceMessage msg)

/-- Model of one tick of the `StartCleanup` loop (subscriber.go): run
`DeleteStaleDevices`; on failure log and skip the broadcast, on success
invoke `broadcastDevices`.  Returns the table afterwards and whether
`broadcastDevices` was invoked. -/
def sweepTick (fl : Faults) (now : GoTime) (store : Store) : Store × Bool :=
  if fl.deleteErr then (store, false)
  else (deleteStaleDevices store now.instant, true)

/-- The store states reachable through the ingestion path alone: start
from the empty table and apply `HandleMessage` for arbitrary messages,
clocks and fault schedules. -/
inductive ReachableIngest : Store → Prop
  | empty : ReachableIngest []
  | step (store : Store) (fl : Faults) (now : GoTime) (topic : String)
      (payload : Option MeshtasticPacket) :
      ReachableIngest store →
      ReachableIngest (HandleMessage fl now store topic payload).1


/-- A fixed clock used by the concrete scenarios. -/
def t1 : GoTime := { instant := 1000000, zone := TZ.utc }

/-- A concrete stored row with non-zero quality fields. -/
def devA : Device :=
  { id := "!00000001", lat := 46, lon := 14, alt := 0, speed := 0, course := 0,
    sats := 8, hdop := 2, batteryMv := 3900, rssi := 5, snr := 7, online := 1,
    lastSeen := { instant := 999000, zone := TZ.utc },
    createdAt := { instant := 1, zone := TZ.utc } }

/-- A concrete position payload with a valid GPS fix (Congress Square,
as in the simulator). -/
def pA : PositionPayload :=
  { latitudeI := 460569000, longitudeI := 145058000, altitude := 12,
    groundSpeed := 0, satsInView := 8 }

/-- A concrete position payload with the all-zero "no fix" sentinel. -/
def p00 : PositionPayload :=
  { latitudeI := 0, longitudeI := 0, altitude := 5, groundSpeed := 0,
    satsInView := 3 }

/-- A concrete device-telemetry payload. -/
def tB : TelemetryPayload :=
  { batteryLevel := 85, voltage := 4, channelUtil := 5, airUtilTX := 2 }

/-- A concrete telemetry payload with the all-zero sentinel
(environment-sensor telemetry carries no battery or voltage). -/
def t00 : TelemetryPayload :=
  { batteryLevel := 0, voltage := 0, channelUtil := 5, airUtilTX := 2 }

/-- The decode of the flat payload
`\x7b"lat":46.0569,"lon":14.5058,"battery_mv":3900\x7d` as a
`MeshtasticPacket`: `json.Unmarshal` succeeds, ignoring the unknown
fields and leaving the tagged fields at their zero values; the absent
`payload` is a nil `json.RawMessage`, on which both inner decodes fail. -/
def flatPacket : MeshtasticPacket :=
  { fromNode := 0, sender := "", timestamp := 0, type := "",
    payload := { asPosition := none, asTelemetry := none } }

/-- A concrete Meshtastic JSON topic. -/
def meshTopic : String := "msh/EU_868/2/json/LongFast/!00000001"

/-- A concrete enveloped position packet from node 1. -/
def posPacket : MeshtasticPacket :=
  { fromNode := 1, sender := "!00000001", timestamp := 123,
    type := "position",
    payload := { asPosition := some pA, asTelemetry := none } }

/-- The store after ingesting `posPacket` on `meshTopic` into the empty
store. -/
def ingestedStore : Store :=
  (HandleMessage noFaults t1 [] meshTopic (some posPacket)).1

/-- The row `ingestedStore` holds. -/
def ingestedDev : Device :=
  { id := "!00000001", lat := ((460569000 : Int) : ℚ) / 10000000,
    lon := ((145058000 : Int) : ℚ) / 10000000, alt := 12, speed := 0,
    course := 0, sats := 8, hdop := 0, batteryMv := 0, rssi := 0, snr := 0,
    online := 1, lastSeen := t1, createdAt := t1 }

/-- A fault schedule where only the upsert fails. -/
def upsertFailFaults : Faults :=
  { getErr := false, upsertErr := true, listErr := false, deleteErr := false }

/-- A fault schedule where only the pre-upsert read fails. -/
def getFailFaults : Faults :=
  { getErr := true, upsertErr := false, listErr := false, deleteErr := false }

/-- A row whose `last_seen` is 49 hours before `t1`. -/
def devStale : Device :=
  { id := "!000000aa", lat := 1, lon := 2, alt := 0, speed := 0, course := 0,
    sats := 4, hdop := 0, batteryMv := 10, rssi := 0, snr := 0, online := 1,
    lastSeen := { instant := 823600, zone := TZ.utc },
    createdAt := { instant := 1, zone := TZ.utc } }

/-- A row whose `last_seen` is 47 hours before `t1`. -/
def devFresh : Device :=
  { id := "!000000bb", lat := 3, lon := 4, alt := 0, speed := 0, course := 0,
    sats := 5, hdop := 0, batteryMv := 20, rssi := 0, snr := 0, online := 1,
    lastSeen := { instant := 830800, zone := TZ.utc },
    createdAt := { instant := 2, zone := TZ.utc } }

/-- Upserting past a non-matching head row leaves that row in place. -/
theorem upsertDevice_cons_ne (e : Device) (es : Store) (p : UpsertDeviceParams)
    (now : GoTime) (h : (e.id == p.id) = false) :
    upsertDevice (e :: es) p now = e :: upsertDevice es p now := by
  have hne : ¬ e.id = p.id := by simpa using h
  by_cases ha : ∃ x ∈ es, x.id = p.id
  · simp only [upsertDevice, List.any_cons, h, Bool.false_or, List.map_cons, if_neg hne]
    simp [ha, hne]
  · simp only [upsertDevice, List.any_cons, h, Bool.false_or, List.map_cons]
    simp [ha, hne]

/-- After an upsert the row under the upserted key is exactly the written
row: all parameter columns plus `last_seen = now` (the `created_at` is
the old one on update, `now` on insert). -/
theorem getDevice_upsertDevice (store : Store) (p : UpsertDeviceParams) (now : GoTime) :
    ∃ c, getDevice (upsertDevice store p now) p.id = some (applyUpsert p now c) := by
  induction store with
  | nil =>
    refine ⟨now, ?_⟩
    simp [upsertDevice, getDevice, applyUpsert]
  | cons e es ih =>
    by_cases h : (e.id == p.id) = true
    · have hid : e.id = p.id := by simpa using h
      refine ⟨e.createdAt, ?_⟩
      have hany : (e :: es).any (fun d => d.id == p.id) = true := by
        simp [List.any_cons, hid]
      unfold upsertDevice
      rw [if_pos hany]
      simp only [List.map_cons, if_pos h]
      rw [getDevice, List.find?_cons_of_pos]
      simp [applyUpsert]
    · have h' : (e.id == p.id) = false := by
        cases hb : e.id == p.id
        · rfl
        · exact absurd hb h
      rw [upsertDevice_cons_ne e es p now h']
      obtain ⟨c, hc⟩ := ih
      refine ⟨c, ?_⟩
      rw [getDevice, List.find?_cons_of_neg]
      · exact hc
      · simp [h']

/-- Every row of an upserted table is either an old row or the written
row. -/
theorem mem_upsertDevice {d : Device} {store : Store} {p : UpsertDeviceParams}
    {now : GoTime} (h : d ∈ upsertDevice store p now) :
    d ∈ store ∨ ∃ c, d = applyUpsert p now c := by
  unfold upsertDevice at h
  by_cases ha : store.any (fun x => x.id == p.id) = true
  · rw [if_pos ha] at h
    obtain ⟨e, he, hfe⟩ := List.mem_map.mp h
    by_cases hid : e.id = p.id
    · right
      exact ⟨e.createdAt, by rw [← hfe]; simp [hid]⟩
    · left
      have : e = d := by rw [← hfe]; simp [hid]
      exact this ▸ he
  · rw [if_neg ha] at h
    rcases List.mem_append.mp h with h1 | h2
    · exact Or.inl h1
    · exact Or.inr ⟨now, by simpa using h2⟩

/-- The parameter record `handlePosition` passes to `UpsertDevice` on the
accepted path (subscriber.go lines 125-138). -/
def positionParams (fl : Faults) (store : Store) (id : String)
    (p : PositionPayload) : UpsertDeviceParams :=
  { id := id, lat := (p.latitudeI : ℚ) / 10000000,
    lon := (p.longitudeI : ℚ) / 10000000, alt := p.altitude,
    speed := p.groundSpeed, course := 0, sats := p.satsInView, hdop := 0,
    batteryMv :=
      (match (if fl.getErr then none else getDevice store id) with
       | some existing => existing.batteryMv
       | none => 0),
    rssi := 0, snr := 0, online := 1 }

/-- The parameter record `handleTelemetry` passes to `UpsertDevice` on
the accepted path (subscriber.go lines 170-183). -/
def telemetryParams (fl : Faults) (store : Store) (id : String)
    (t : TelemetryPayload) : UpsertDeviceParams :=
  let existing : Device :=
    (match (if fl.getErr then none else getDevice store id) with
     | some e => e
     | none => zeroDevice)
  { id := id, lat := existing.lat, lon := existing.lon, alt := existing.alt,
    speed := existing.speed, course := 0, sats := existing.sats, hdop := 0,
    batteryMv := truncQ t.batteryLevel, rssi := 0, snr := 0, online := 1 }

/-- On the accepted, persisted path, `handlePosition` upserts exactly
`positionParams` and triggers the broadcast. -/
theorem handlePosition_accepted (fl : Faults) (now : GoTime) (store : Store)
    (id : String) (p : PositionPayload)
    (h0 : ¬(p.latitudeI = 0 ∧ p.longitudeI = 0)) (hu : fl.upsertErr = false) :
    handlePosition fl now store id (some p) =
      (upsertDevice store (positionParams fl store id p) now, true) := by
  simp only [handlePosition, positionParams]
  rw [if_neg h0]
  simp only [hu, Bool.false_eq_true, if_false]

/-- On the accepted, persisted path, `handleTelemetry` upserts exactly
`telemetryParams` and triggers the broadcast. -/
theorem handleTelemetry_accepted (fl : Faults) (now : GoTime) (store : Store)
    (id : String) (t : TelemetryPayload)
    (h0 : ¬(t.batteryLevel = 0 ∧ t.voltage = 0)) (hu : fl.upsertErr = false) :
    handleTelemetry fl now store id (some t) =
      (upsertDevice store (telemetryParams fl store id t) now, true) := by
  simp only [handleTelemetry, telemetryParams]
  rw [if_neg h0]
  simp only [hu, Bool.false_eq_true, if_false]

/-- Structure of a `handlePosition` run: either nothing happened (store
unchanged, no broadcast), or the message was accepted and persisted —
the store was upserted under the node id with `online = 1` and the
broadcast was triggered. -/
theorem handlePosition_shape (fl : Faults) (now : GoTime) (store : Store)
    (id : String) (raw : Option PositionPayload) :
    handlePosition fl now store id raw = (store, false) ∨
    ∃ prm : UpsertDeviceParams, prm.id = id ∧ prm.online = 1 ∧
      handlePosition fl now store id raw = (upsertDevice store prm now, true) := by
  cases raw with
  | none => exact Or.inl rfl
  | some p =>
    by_cases h0 : p.latitudeI = 0 ∧ p.longitudeI = 0
    · exact Or.inl (by simp [handlePosition, h0])
    · by_cases hu : fl.upsertErr = true
      · exact Or.inl (by simp [handlePosition, h0, hu])
      · have hu' : fl.upsertErr = false := by simpa using hu
        exact Or.inr ⟨positionParams fl store id p, rfl, rfl,
          handlePosition_accepted fl now store id p h0 hu'⟩

/-- Structure of a `handleTelemetry` run, in the same sense. -/
theorem handleTelemetry_shape (fl : Faults) (now : GoTime) (store : Store)
    (id : String) (raw : Option TelemetryPayload) :
    handleTelemetry fl now store id raw = (store, false) ∨
    ∃ prm : UpsertDeviceParams, prm.id = id ∧ prm.online = 1 ∧
      handleTelemetry fl now store id raw = (upsertDevice store prm now, true) := by
  cases raw with
  | none => exact Or.inl rfl
  | some t =>
    by_cases h0 : t.batteryLevel = 0 ∧ t.voltage = 0
    · exact Or.inl (by simp [handleTelemetry, h0])
    · by_cases hu : fl.upsertErr = true
      · exact Or.inl (by simp [handleTelemetry, h0, hu])
      · have hu' : fl.upsertErr = false := by simpa using hu
        exact Or.inr ⟨telemetryParams fl store id t, rfl, rfl,
          handleTelemetry_accepted fl now store id t h0 hu'⟩

/-- Structure of a `HandleMessage` run: the store is unchanged, or it was
upserted with `online = 1`. -/
theorem HandleMessage_shape (fl : Faults) (now : GoTime) (store : Store)
    (topic : String) (payload : Option MeshtasticPacket) :
    (HandleMessage fl now store topic payload).1 = store ∨
    ∃ prm : UpsertDeviceParams, prm.online = 1 ∧
      (HandleMessage fl now store topic payload).1 = upsertDevice store prm now := by
  by_cases ht : isMeshtasticJSONTopic topic = true
  · cases payload with
    | none => exact Or.inl (by simp [HandleMessage, ht])
    | some pkt =>
      by_cases hp : pkt.type = "position"
      · have hred : HandleMessage fl now store topic (some pkt) =
            handlePosition fl now store (nodeID pkt.fromNode) pkt.payload.asPosition := by
          simp [HandleMessage, ht, hp]
        rw [hred]
        rcases handlePosition_shape fl now store (nodeID pkt.fromNode)
            pkt.payload.asPosition with h | ⟨prm, _, ho, h⟩
        · exact Or.inl (by rw [h])
        · exact Or.inr ⟨prm, ho, by rw [h]⟩
      · by_cases hq : pkt.type = "telemetry"
        · have hred : HandleMessage fl now store topic (some pkt) =
              handleTelemetry fl now store (nodeID pkt.fromNode) pkt.payload.asTelemetry := by
            simp [HandleMessage, ht, hp, hq]
          rw [hred]
          rcases handleTelemetry_shape fl now store (nodeID pkt.fromNode)
              pkt.payload.asTelemetry with h | ⟨prm, _, ho, h⟩
          · exact Or.inl (by rw [h])
          · exact Or.inr ⟨prm, ho, by rw [h]⟩
        · exact Or.inl (by simp [HandleMessage, ht, hp, hq])
  · exact Or.inl (by simp [HandleMessage, ht])

/-- C1 (counterexample): ingesting the flat payload
`\x7b"lat":46.0569,"lon":14.5058,"battery_mv":3900\x7d` on topic
`devices/d1/status` through `HandleMessage` leaves the store unchanged
(empty) and triggers no broadcast; in particular no record with id `d1`
is stored, contradicting the claimed scenario. -/
theorem flatTopicScenario_cex :
    HandleMessage noFaults t1 [] "devices/d1/status" (some flatPacket) = ([], false) ∧
    getDevice (HandleMessage noFaults t1 [] "devices/d1/status" (some flatPacket)).1 "d1" = none :=
  ⟨rfl, rfl⟩

/-- C1 (amended): any message published on a topic that fails the
`isMeshtasticJSONTopic` gate — in particular the three-segment flat
topic `devices/d1/status` — is silently dropped by `HandleMessage`: the
store is unchanged and no broadcast is triggered.  Only the enveloped
Meshtastic shape on `msh/{region}/2/json/...` topics is recognized. -/
theorem flatTopicDropped (fl : Faults) (now : GoTime) (store : Store)
    (topic : String) (payload : Option MeshtasticPacket)
    (h : isMeshtasticJSONTopic topic = false) :
    HandleMessage fl now store topic payload = (store, false) := by
  simp [HandleMessage, h]

/-- C1 (witness): the amended drop theorem applied to the concrete flat
scenario on a non-empty store. -/
theorem flatTopicDropped_witness :
    isMeshtasticJSONTopic "devices/d1/status" = false ∧
    HandleMessage noFaults t1 [devA] "devices/d1/status" (some flatPacket) = ([devA], false) :=
  ⟨rfl, flatTopicDropped noFaults t1 [devA] "devices/d1/status" (some flatPacket) rfl⟩

/-- C7: a position packet whose `latitude_i` and `longitude_i` are both
zero is silently dropped — the store is unchanged, no broadcast occurs
and no error is surfaced. -/
theorem noFixPositionDropped (fl : Faults) (now : GoTime) (store : Store)
    (id : String) (p : PositionPayload)
    (h1 : p.latitudeI = 0) (h2 : p.longitudeI = 0) :
    handlePosition fl now store id (some p) = (store, false) := by
  simp [handlePosition, h1, h2]

/-- C7 (witness): the all-zero sentinel position payload is dropped over
a non-empty store. -/
theorem noFixPositionDropped_witness :
    handlePosition noFaults t1 [devA] "!00000001" (some p00) = ([devA], false) :=
  noFixPositionDropped noFaults t1 [devA] "!00000001" p00 rfl rfl

/-- C10: a telemetry packet whose `battery_level` and `voltage` are both
zero is silently dropped — no store write and no broadcast. -/
theorem telemetrySentinelDropped (fl : Faults) (now : GoTime) (store : Store)
    (id : String) (t : TelemetryPayload)
    (h1 : t.batteryLevel = 0) (h2 : t.voltage = 0) :
    handleTelemetry fl now store id (some t) = (store, false) := by
  simp [handleTelemetry, h1, h2]

/-- C10 (witness): the all-zero telemetry payload is dropped over a
non-empty store. -/
theorem telemetrySentinelDropped_witness :
    handleTelemetry noFaults t1 [devA] "!00000001" (some t00) = ([devA], false) :=
  telemetrySentinelDropped noFaults t1 [devA] "!00000001" t00 rfl rfl

/-- C4: for every store state and fault schedule, the catch-up snapshot
a newly joined viewer receives (`LoadAndBroadcast`) is byte-identical to
the payload the broadcast path (`broadcastDevices`) hands to all
viewers: the two code paths compute the same list-and-assemble
function. -/
theorem snapshotConvergence (fl : Faults) (store : Store) :
    LoadAndBroadcast fl store = broadcastDevices fl store :=
  rfl

/-- C6: for every accepted update (a decoded position payload with a GPS
fix, or a decoded telemetry payload past the sentinel check), the
broadcast is triggered exactly when the upsert succeeds, and on upsert
failure the update is abandoned with the store unchanged. -/
theorem broadcastIffPersisted (fl : Faults) (now : GoTime) (store : Store)
    (id : String) (p : PositionPayload) (t : TelemetryPayload)
    (hp : ¬(p.latitudeI = 0 ∧ p.longitudeI = 0))
    (ht : ¬(t.batteryLevel = 0 ∧ t.voltage = 0)) :
    ((handlePosition fl now store id (some p)).2 = true ↔ fl.upsertErr = false)
    ∧ (fl.upsertErr = true → (handlePosition fl now store id (some p)).1 = store)
    ∧ ((handleTelemetry fl now store id (some t)).2 = true ↔ fl.upsertErr = false)
    ∧ (fl.upsertErr = true → (handleTelemetry fl now store id (some t)).1 = store) := by
  cases hu : fl.upsertErr with
  | false =>
    rw [handlePosition_accepted fl now store id p hp hu,
        handleTelemetry_accepted fl now store id t ht hu]
    simp
  | true =>
    refine ⟨?_, ?_, ?_, ?_⟩ <;> simp [handlePosition, handleTelemetry, hp, ht, hu]

/-- C6 (witness): with a fault-free store the accepted position triggers
the broadcast; with a failing upsert the accepted telemetry leaves the
store unchanged. -/
theorem broadcastIffPersisted_witness :
    (handlePosition noFaults t1 [] "!00000001" (some pA)).2 = true ∧
    (handleTelemetry upsertFailFaults t1 [] "!00000001" (some tB)).1 = [] := by
  constructor
  · exact (broadcastIffPersisted noFaults t1 [] "!00000001" pA tB
      (by decide) (by decide)).1.mpr rfl
  · exact (broadcastIffPersisted upsertFailFaults t1 [] "!00000001" pA tB
      (by decide) (by decide)).2.2.2 rfl

/-- C5: a successful sweep tick keeps exactly the records whose
`last_seen` is not older than 48 hours (172800 seconds) before the
tick's clock: a row is in the list after the tick iff it was stored and
its `last_seen` is at or after `now - 48h`. -/
theorem staleSweepExact (fl : Faults) (now : GoTime) (store : Store)
    (h : fl.deleteErr = false) (d : Device) :
    d ∈ listDevices (sweepTick fl now store).1 ↔
      (d ∈ store ∧ ¬ d.lastSeen.instant < now.instant - 172800) := by
  simp only [sweepTick, h, Bool.false_eq_true, if_false]
  rw [listDevices, List.mem_insertionSort]
  simp [deleteStaleDevices, staleThreshold, List.mem_filter]

/-- C5 (witness): over a store holding a row 49 hours old and a row 47
hours old, the tick at clock `t1` keeps the 47-hour row in the list and
deletes the 49-hour row. -/
theorem staleSweepExact_witness :
    devFresh ∈ listDevices (sweepTick noFaults t1 [devStale, devFresh]).1 ∧
    devStale ∉ listDevices (sweepTick noFaults t1 [devStale, devFresh]).1 := by
  constructor
  · exact (staleSweepExact noFaults t1 [devStale, devFresh] rfl devFresh).mpr
      ⟨by decide, by decide⟩
  · intro hmem
    exact ((staleSweepExact noFaults t1 [devStale, devFresh] rfl devStale).mp hmem).2
      (by decide)

/-- C8: with a successful list query, the broadcast payload is the
single JSON envelope with tag "devices" over the listed rows mapped to
the viewer shape; the listed rows are a permutation of the store sorted
by `last_seen` descending; and each view coerces the online flag to a
boolean and normalizes `last_seen` to UTC. -/
theorem snapshotAssembly (fl : Faults) (store : Store) (h : fl.listErr = false) :
    broadcastDevices fl store =
      some (marshalDeviceMessage
        { type := "devices", data := (listDevices store).map deviceToView })
    ∧ (listDevices store).Perm store
    ∧ List.Sorted devGE (listDevices store)
    ∧ ∀ d : Device, (deviceToView d).online = (d.online != 0) ∧
        (deviceToView d).lastSeen = d.lastSeen.toUTC := by
  refine ⟨?_, List.perm_insertionSort devGE store,
    List.sorted_insertionSort devGE store, fun d => ⟨rfl, rfl⟩⟩
  simp [broadcastDevices, h]

/-- C8 (witness): the assembly facts at a concrete store. -/
theorem snapshotAssembly_witness :
    broadcastDevices noFaults [devA] =
      some (marshalDeviceMessage
        { type := "devices", data := (listDevices [devA]).map deviceToView })
    ∧ (listDevices [devA]).Perm [devA] :=
  ⟨(snapshotAssembly noFaults [devA] rfl).1, (snapshotAssembly noFaults [devA] rfl).2.1⟩

/-- C9 (implicit): in the position path, when the pre-upsert read fails
(`GetDevice` returns any error) but the upsert succeeds, the written row
carries `battery_mv = 0` — even when a prior row for the same id with a
non-zero battery exists, that value is overwritten with 0. -/
theorem batteryZeroOnReadError (fl : Faults) (now : GoTime) (store : Store)
    (id : String) (p : PositionPayload) (ex : Device)
    (hg : fl.getErr = true) (hu : fl.upsertErr = false)
    (hfix : ¬(p.latitudeI = 0 ∧ p.longitudeI = 0))
    (_hex : getDevice store id = some ex) :
    ∃ r, getDevice (handlePosition fl now store id (some p)).1 id = some r ∧
      r.batteryMv = 0 := by
  rw [handlePosition_accepted fl now store id p hfix hu]
  obtain ⟨c, hc⟩ := getDevice_upsertDevice store (positionParams fl store id p) now
  exact ⟨_, hc, by simp [applyUpsert, positionParams, hg]⟩

/-- C9 (witness): over a store holding `devA` (battery 3900), a position
update under a read fault stores battery 0. -/
theorem batteryZeroOnReadError_witness :
    ∃ r, getDevice (handlePosition getFailFaults t1 [devA] "!00000001" (some pA)).1
        "!00000001" = some r ∧ r.batteryMv = 0 :=
  batteryZeroOnReadError getFailFaults t1 [devA] "!00000001" pA devA
    rfl rfl (by decide) rfl

/-- C3: every successful reconcile (position or telemetry — here
"successful" is the broadcast flag, which fires exactly on acceptance
plus persisted upsert) writes a row with `online = 1` and
`last_seen = now` under the node id; and every store state reachable
through the ingestion path alone contains only rows with `online = 1` —
no ingestion operation ever sets the flag to 0. -/
theorem ingestOnlineInvariant :
    (∀ (fl : Faults) (now : GoTime) (store : Store) (id : String)
        (raw : Option PositionPayload),
      (handlePosition fl now store id raw).2 = true →
      ∃ r, getDevice (handlePosition fl now store id raw).1 id = some r ∧
        r.online = 1 ∧ r.lastSeen = now)
    ∧ (∀ (fl : Faults) (now : GoTime) (store : Store) (id : String)
        (raw : Option TelemetryPayload),
      (handleTelemetry fl now store id raw).2 = true →
      ∃ r, getDevice (handleTelemetry fl now store id raw).1 id = some r ∧
        r.online = 1 ∧ r.lastSeen = now)
    ∧ (∀ store : Store, ReachableIngest store → ∀ d ∈ store, d.online = 1) := by
  refine ⟨?_, ?_, ?_⟩
  · intro fl now store id raw hb
    rcases handlePosition_shape fl now store id raw with h | ⟨prm, hid, ho, h⟩
    · rw [h] at hb
      exact absurd hb (by simp)
    · rw [h]
      obtain ⟨c, hc⟩ := getDevice_upsertDevice store prm now
      rw [hid] at hc
      exact ⟨_, hc, by simp [applyUpsert, ho], rfl⟩
  · intro fl now store id raw hb
    rcases handleTelemetry_shape fl now store id raw with h | ⟨prm, hid, ho, h⟩
    · rw [h] at hb
      exact absurd hb (by simp)
    · rw [h]
      obtain ⟨c, hc⟩ := getDevice_upsertDevice store prm now
      rw [hid] at hc
      exact ⟨_, hc, by simp [applyUpsert, ho], rfl⟩
  · intro store hr
    induction hr with
    | empty => intro d hd; exact absurd hd (List.not_mem_nil d)
    | step s fl now topic payload _ ih =>
      intro d hd
      rcases HandleMessage_shape fl now s topic payload with h | ⟨prm, ho, h⟩
      · exact ih d (h ▸ hd)
      · rw [h] at hd
        rcases mem_upsertDevice hd with hmem | ⟨c, rfl⟩
        · exact ih d hmem
        · simp [applyUpsert, ho]

/-- C3 (witness): the invariant applied to the store reached by
ingesting a concrete position packet into the empty store, and to the
row written by that successful reconcile. -/
theorem ingestOnlineInvariant_witness : ingestedDev.online = 1 :=
  ingestOnlineInvariant.2.2 ingestedStore
    (ReachableIngest.step [] noFaults t1 meshTopic (some posPacket) ReachableIngest.empty)
    ingestedDev
    (by rw [show ingestedStore = [ingestedDev] from rfl]; exact List.mem_singleton.mpr rfl)

/-- C2 (counterexample): the stored row `devA` has `hdop = 2` and
`rssi = 5`; a telemetry reconcile carries neither field, yet afterwards
the row holds `hdop = 0` and `rssi = 0` — fields absent from the update
are not all carried forward, contradicting the claim. -/
theorem partialPreservation_cex :
    devA.hdop = 2 ∧ devA.rssi = 5 ∧
    getDevice (handleTelemetry noFaults t1 [devA] "!00000001" (some tB)).1 "!00000001" =
      some { id := "!00000001", lat := 46, lon := 14, alt := 0, speed := 0,
             course := 0, sats := 8, hdop := 0, batteryMv := 85, rssi := 0,
             snr := 0, online := 1, lastSeen := t1,
             createdAt := { instant := 1, zone := TZ.utc } } :=
  ⟨rfl, rfl, by decide⟩

/-- C2 (amended): with a successful pre-upsert read of the prior row, a
telemetry reconcile carries forward the positional fields and the
satellite count (lat, lon, alt, speed, sats) and a position reconcile
carries forward the battery; but both paths write
`course = hdop = rssi = snr = 0` unconditionally instead of carrying
those fields forward. -/
theorem partialPreservationAmended (fl : Faults) (now : GoTime) (store : Store)
    (id : String) (p : PositionPayload) (t : TelemetryPayload) (ex : Device)
    (hg : fl.getErr = false) (hu : fl.upsertErr = false)
    (hex : getDevice store id = some ex)
    (hfix : ¬(p.latitudeI = 0 ∧ p.longitudeI = 0))
    (hbv : ¬(t.batteryLevel = 0 ∧ t.voltage = 0)) :
    (∃ r, getDevice (handleTelemetry fl now store id (some t)).1 id = some r ∧
       r.lat = ex.lat ∧ r.lon = ex.lon ∧ r.alt = ex.alt ∧ r.speed = ex.speed ∧
       r.sats = ex.sats ∧ r.course = 0 ∧ r.hdop = 0 ∧ r.rssi = 0 ∧ r.snr = 0)
    ∧ (∃ r, getDevice (handlePosition fl now store id (some p)).1 id = some r ∧
       r.batteryMv = ex.batteryMv ∧ r.course = 0 ∧ r.hdop = 0 ∧ r.rssi = 0 ∧
       r.snr = 0) := by
  constructor
  · rw [handleTelemetry_accepted fl now store id t hbv hu]
    obtain ⟨c, hc⟩ := getDevice_upsertDevice store (telemetryParams fl store id t) now
    refine ⟨_, hc, ?_, ?_, ?_, ?_, ?_, rfl, rfl, rfl, rfl⟩ <;>
      simp [applyUpsert, telemetryParams, hg, hex]
  · rw [handlePosition_accepted fl now store id p hfix hu]
    obtain ⟨c, hc⟩ := getDevice_upsertDevice store (positionParams fl store id p) now
    refine ⟨_, hc, ?_, rfl, rfl, rfl, rfl⟩
    simp [applyUpsert, positionParams, hg, hex]

/-- C2 (witness): the amended preservation facts at the concrete store
`[devA]`: telemetry keeps lat 46 and sats 8, position keeps battery
3900, both zero the quality fields. -/
theorem partialPreservationAmended_witness :
    (∃ r, getDevice (handleTelemetry noFaults t1 [devA] "!00000001" (some tB)).1
        "!00000001" = some r ∧
      r.lat = devA.lat ∧ r.lon = devA.lon ∧ r.alt = devA.alt ∧
      r.speed = devA.speed ∧ r.sats = devA.sats ∧ r.course = 0 ∧ r.hdop = 0 ∧
      r.rssi = 0 ∧ r.snr = 0)
    ∧ (∃ r, getDevice (handlePosition noFaults t1 [devA] "!00000001" (some pA)).1
        "!00000001" = some r ∧
      r.batteryMv = devA.batteryMv ∧ r.course = 0 ∧ r.hdop = 0 ∧ r.rssi = 0 ∧
      r.snr = 0) :=
  partialPreservationAmended noFaults t1 [devA] "!00000001" pA tB devA
    rfl rfl rfl (by decide) (by decide)
